import Mathlib

/-
Verification development for the X715 fan controller
(`X715_fan.py`, `pwm_fan_control.py`, `read_fan_speed.py`).

Modelling conventions:
* temperatures, timestamps and durations are rationals (`ℚ`); every quantity
  a claim evaluates is exactly representable as an IEEE binary64 double, so
  the rational semantics agrees with the source's float semantics on those
  inputs;
* driver status codes are integers (`ℤ`), with the source's convention
  "non-negative is success, negative is failure";
* effectful runs are modelled as an explicit event trace plus a control
  outcome; Python's implicit exception chaining (`__context__`, set when a
  `raise` happens while another exception is propagating) is made explicit
  as the list of exception kinds the new raise replaced.
-/

/-- `_temp_to_duty_cycle` from `X715_fan.py` lines 138-162 (textually identical
in `pwm_fan_control.py` lines 84-108): the vendor fan curve.  The chained
comparisons `50 > temp >= 30` etc. are unfolded into conjunctions. -/
def temp_to_duty_cycle (temp : ℚ) : ℤ :=
  if temp < 30 then 0
  else if 50 > temp ∧ temp ≥ 30 then 40
  else if 55 > temp ∧ temp ≥ 50 then 50
  else if 60 > temp ∧ temp ≥ 55 then 75
  else if 65 > temp ∧ temp ≥ 60 then 90
  else 100

/-- Round a rational to the nearest integer, ties to even.  This is the
rounding CPython's `'%.2f' % x` applies to a float `x` whose value is exactly
representable in decimal at that precision: CPython formats floats with a
correctly-rounded decimal conversion in round-to-nearest/ties-to-even mode. -/
def roundHalfEven (q : ℚ) : ℤ :=
  if q - ⌊q⌋ < 1/2 then ⌊q⌋
  else if 1/2 < q - ⌊q⌋ then ⌊q⌋ + 1
  else if Even ⌊q⌋ then ⌊q⌋ else ⌊q⌋ + 1

/-- Rounding to two decimal places, as performed by `float('%.2f' % temp)` in
`_get_temp` (exact-value case, see `roundHalfEven`). -/
def round2 (q : ℚ) : ℚ := (roundHalfEven (q * 100) : ℚ) / 100

/-- Whitespace, as stripped by Python's `float` on its string argument. -/
def isWs (c : Char) : Bool := c = ' ' || c = '\n' || c = '\t' || c = '\r'

def digitVal (c : Char) : Option ℕ :=
  if '0' ≤ c && c ≤ '9' then some (c.toNat - '0'.toNat) else none

def parseNatAux : List Char → ℕ → Option ℕ
  | [], acc => some acc
  | c :: cs, acc =>
    match digitVal c with
    | some d => parseNatAux cs (10 * acc + d)
    | none => none

def parseNat : List Char → Option ℕ
  | [] => none
  | cs => parseNatAux cs 0

/-- Python's builtin `float(raw)` restricted to the sensor contract: an
optionally signed integer literal, optionally wrapped in whitespace (the
kernel exposes milli-degrees as a decimal integer).  Contents that are not
such a literal raise `ValueError`, modelled as `none`.  (Python's `float`
also accepts fractional/exponent/`inf`/`nan` spellings; the sensor never
produces those and no claim mentions them, so they are not modelled.) -/
def pyFloatInt (s : String) : Option ℤ :=
  match (s.data.dropWhile isWs).reverse.dropWhile isWs |>.reverse with
  | '-' :: rest => (parseNat rest).map fun n => -(n : ℤ)
  | '+' :: rest => (parseNat rest).map fun n => (n : ℤ)
  | rest => (parseNat rest).map fun n => (n : ℤ)

/-- `_get_temp` from `X715_fan.py` lines 125-135 (identical in
`pwm_fan_control.py` lines 73-82), as a function of the sensor file's entire
contents: `temp = float(raw) / 1000.00; temp = float('%.2f' % temp)`.
An unreadable file or unparsable contents raise, modelled as `none`. -/
def get_temp (contents : String) : Option ℚ :=
  (pyFloatInt contents).map fun n => round2 ((n : ℚ) / 1000)

/-- The temperature `_get_temp` yields when the sensor file holds the integer
`milli` (milli-degrees Celsius). -/
def tempOf (milli : ℤ) : ℚ := round2 ((milli : ℚ) / 1000)

/-- One observable driver/loop action.  Each driver-call event records the
arguments of the call and the status it returned. -/
inductive Event
  | openChip (chip result : ℤ)
  | claimOutput (h gpio result : ℤ)
  | claimAlert (h gpio result : ℤ)
  | getTemp (t : ℚ)
  | txPwm (h gpio freq duty result : ℤ)
  | sleep
  | callbackCancel
  | freeGpio (h gpio result : ℤ)
  | closeChip (h result : ℤ)
  deriving DecidableEq

/-- The exception classes the sources raise: `asyncio.CancelledError`,
`lgpio.error` (split by which call failed, following the distinct messages in
the source), and the `OSError`/`ValueError` of `_get_temp`. -/
inductive ExcKind
  | cancelled
  | openError
  | closeError
  | claimError
  | freeError
  | pwmError
  | sensorError
  deriving DecidableEq

/-- A propagating Python exception: its class plus the chain of exceptions it
(transitively) replaced, i.e. the `__context__` chain, innermost first. -/
structure Exc where
  kind : ExcKind
  context : List ExcKind
  deriving DecidableEq

/-- How a block of code finished: fell off the end normally, an exception is
propagating, or the modelling fuel ran out mid-loop (the program would still
be running, so no cleanup has executed yet). -/
inductive Ctl
  | done
  | raised (e : Exc)
  | fuelOut
  deriving DecidableEq

/-- Result of running a block: the events it performed, in order, and how it
finished. -/
structure Res where
  trace : List Event
  ctl : Ctl
  deriving DecidableEq

/-- Python's behaviour when a `raise` of kind `k` happens in a `finally`
while `ctl` is the state of the block: if an exception was propagating it
becomes the `__context__` of the new one (implicit chaining); the new
exception propagates in its place. -/
def raiseDuring (k : ExcKind) : Ctl → Exc
  | .raised e => ⟨k, e.kind :: e.context⟩
  | _ => ⟨k, []⟩

/-- `_gpiochip` from `X715_fan.py` lines 25-47 (identical in
`pwm_fan_control.py` lines 26-47): open the chip; a negative handle raises
without running the body; otherwise run the body with the handle and, in
`finally`, close the chip, raising (and thereby chaining over any in-flight
exception) if close returns a negative status.  `openResult` and
`closeResult` are the statuses the driver returns to this run. -/
def gpiochip (chip : ℤ) (openResult closeResult : ℤ) (body : ℤ → Res) : Res :=
  if openResult < 0 then
    ⟨[.openChip chip openResult], .raised ⟨.openError, []⟩⟩
  else
    let r := body openResult
    if r.ctl = .fuelOut then
      ⟨.openChip chip openResult :: r.trace, .fuelOut⟩
    else
      let tr := .openChip chip openResult :: r.trace ++ [.closeChip openResult closeResult]
      if closeResult < 0 then ⟨tr, .raised (raiseDuring .closeError r.ctl)⟩
      else ⟨tr, r.ctl⟩

/-- `_gpio_claim_output` from `X715_fan.py` lines 50-71 (identical in
`pwm_fan_control.py` lines 50-71): claim the line as output; a negative
status raises without running the body; otherwise run the body and, in
`finally`, free the line, raising (chaining) on a negative status. -/
def gpio_claim_output (h gpio : ℤ) (claimResult freeResult : ℤ) (body : Res) : Res :=
  if claimResult < 0 then
    ⟨[.claimOutput h gpio claimResult], .raised ⟨.claimError, []⟩⟩
  else if body.ctl = .fuelOut then
    ⟨.claimOutput h gpio claimResult :: body.trace, .fuelOut⟩
  else
    let tr := .claimOutput h gpio claimResult :: body.trace ++ [.freeGpio h gpio freeResult]
    if freeResult < 0 then ⟨tr, .raised (raiseDuring .freeError body.ctl)⟩
    else ⟨tr, body.ctl⟩

/-- `_gpio_claim_alert` from `X715_fan.py` lines 91-106: same shape as
`_gpio_claim_output` with the claim call replaced by `gpio_claim_alert`. -/
def gpio_claim_alert (h gpio : ℤ) (claimResult freeResult : ℤ) (body : Res) : Res :=
  if claimResult < 0 then
    ⟨[.claimAlert h gpio claimResult], .raised ⟨.claimError, []⟩⟩
  else if body.ctl = .fuelOut then
    ⟨.claimAlert h gpio claimResult :: body.trace, .fuelOut⟩
  else
    let tr := .claimAlert h gpio claimResult :: body.trace ++ [.freeGpio h gpio freeResult]
    if freeResult < 0 then ⟨tr, .raised (raiseDuring .freeError body.ctl)⟩
    else ⟨tr, body.ctl⟩

/-- `_gpio_callback` from `X715_fan.py` lines 108-122: register the callback,
run the body, cancel the callback in `finally` (cancelling has no status). -/
def gpio_callback (body : Res) : Res :=
  if body.ctl = .fuelOut then body
  else ⟨body.trace ++ [.callbackCancel], body.ctl⟩

/-- The environment's behaviour for one iteration of the fan loop:
cancellation delivered at the `await _get_temp()` suspension point; the
sensor read failing (unreadable or unparsable file); or a successful read of
`milli` milli-degrees followed by a PWM call returning `pwmResult`, with
`cancelAtSleep` saying whether cancellation is delivered at the
`await asyncio.sleep(3)` suspension point. -/
inductive IterEnv
  | cancelAtRead
  | sensorFail
  | reading (milli : ℤ) (pwmResult : ℤ) (cancelAtSleep : Bool)
  deriving DecidableEq

/-- Why the `while True:` loop stopped (or `fuelOut` if the supplied
environment list ran out while the loop would keep running). -/
inductive LoopStop
  | fuelOut
  | cancelled
  | sensorError
  | pwmError
  deriving DecidableEq

structure LoopRes where
  trace : List Event
  stop : LoopStop
  deriving DecidableEq

/-- The `while True:` body of `fan_control_chiphandle` (`X715_fan.py` lines
182-199): read temperature, compute the duty cycle, call `tx_pwm` (raising if
it returns a negative queue length), log, sleep; repeat.  Exceptions and
cancellations abort the iteration sequence at the point they arise. -/
def fanLoop (h gpio freq : ℤ) : List IterEnv → LoopRes
  | [] => ⟨[], .fuelOut⟩
  | .cancelAtRead :: _ => ⟨[], .cancelled⟩
  | .sensorFail :: _ => ⟨[], .sensorError⟩
  | .reading milli q c :: rest =>
    let t := tempOf milli
    let d := temp_to_duty_cycle t
    if q < 0 then ⟨[.getTemp t, .txPwm h gpio freq d q], .pwmError⟩
    else if c then ⟨[.getTemp t, .txPwm h gpio freq d q, .sleep], .cancelled⟩
    else
      let r := fanLoop h gpio freq rest
      ⟨.getTemp t :: .txPwm h gpio freq d q :: .sleep :: r.trace, r.stop⟩

/-- Driver statuses and scheduling choices for one run: the statuses returned
by `gpiochip_open`, `gpio_claim_output`/`gpio_claim_alert`, the per-iteration
behaviour, the status of the forced duty-0 `tx_pwm` on the cancellation path,
and the statuses of `gpio_free` and `gpiochip_close`. -/
structure Env where
  openResult : ℤ
  claimResult : ℤ
  iters : List IterEnv
  cancelPwmResult : ℤ
  freeResult : ℤ
  closeResult : ℤ
  deriving DecidableEq

/-- The `try ... except asyncio.CancelledError:` block of
`fan_control_chiphandle` (`X715_fan.py` lines 181-210): run the loop; other
exceptions pass through; on cancellation set duty cycle 0 with one more
`tx_pwm` call, raise `lgpio.error` (chaining over the `CancelledError`) if it
returns a negative status, otherwise re-raise the cancellation. -/
def tryBody (h gpio freq : ℤ) (iters : List IterEnv) (cancelPwm : ℤ) : Res :=
  if (fanLoop h gpio freq iters).stop = .fuelOut then
    ⟨(fanLoop h gpio freq iters).trace, .fuelOut⟩
  else if (fanLoop h gpio freq iters).stop = .sensorError then
    ⟨(fanLoop h gpio freq iters).trace, .raised ⟨.sensorError, []⟩⟩
  else if (fanLoop h gpio freq iters).stop = .pwmError then
    ⟨(fanLoop h gpio freq iters).trace, .raised ⟨.pwmError, []⟩⟩
  else if cancelPwm < 0 then
    ⟨(fanLoop h gpio freq iters).trace ++ [.txPwm h gpio freq 0 cancelPwm],
     .raised ⟨.pwmError, [.cancelled]⟩⟩
  else
    ⟨(fanLoop h gpio freq iters).trace ++ [.txPwm h gpio freq 0 cancelPwm],
     .raised ⟨.cancelled, []⟩⟩

/-- `FREQUENCY` from `X715_fan.py` line 178. -/
def FREQUENCY : ℤ := 20

/-- `FREQUENCY` from `pwm_fan_control.py` line 123. -/
def PWM_FREQUENCY : ℤ := 10

/-- `fan_control_chiphandle` from `X715_fan.py` lines 165-210. -/
def fan_control_chiphandle (h gpio : ℤ) (env : Env) : Res :=
  gpio_claim_output h gpio env.claimResult env.freeResult
    (tryBody h gpio FREQUENCY env.iters env.cancelPwmResult)

/-- `fan_control_chiphandle` from `pwm_fan_control.py` lines 110-153: same
code with `FREQUENCY = 10` instead of `20`. -/
def pwm_fan_control_chiphandle (h gpio : ℤ) (env : Env) : Res :=
  gpio_claim_output h gpio env.claimResult env.freeResult
    (tryBody h gpio PWM_FREQUENCY env.iters env.cancelPwmResult)

/-- `fan_control` from `X715_fan.py` lines 213-224: open the chip and run
`fan_control_chiphandle` on the obtained handle. -/
def fan_control (chip gpio : ℤ) (env : Env) : Res :=
  gpiochip chip env.openResult env.closeResult
    (fun h => fan_control_chiphandle h gpio env)

/-- The innermost body of `main` in `read_fan_speed.py` lines 37-40: thirty
print-and-sleep iterations, completing normally. -/
def read_fan_speed_body : Res := ⟨List.replicate 30 .sleep, .done⟩

/-- `main` from `read_fan_speed.py` lines 26-40, resource skeleton: chip 0,
alert claim on line 16, callback registration, then the polling loop. -/
def read_fan_speed_main (env : Env) : Res :=
  gpiochip 0 env.openResult env.closeResult (fun h =>
    gpio_claim_alert h 16 env.claimResult env.freeResult
      (gpio_callback read_fan_speed_body))

/-- `Tachometer` state from `read_fan_speed.py` lines 10-23: timestamp of the
last accepted edge and the rolling RPM estimate. -/
structure Tachometer where
  t : ℚ
  rpm : ℚ
  deriving DecidableEq

/-- `Tachometer.fell`: `now₁` and `now₂` are the values returned by the two
`time.time()` calls (line 18 computing `dt`, line 23 storing the new
timestamp).  An edge closer than 0.005 s to the last accepted edge returns
with no state change; otherwise `freq = 1 / dt; rpm = (freq / PULSE) * 60`
and the timestamp is updated.  `dt := now₁ - s.t` and the constant
`PULSE = 2` are inlined. -/
def Tachometer.fell (s : Tachometer) (now₁ now₂ : ℚ) : Tachometer :=
  if now₁ - s.t < 5/1000 then s
  else { t := now₂, rpm := 1 / (now₁ - s.t) / 2 * 60 }

/-- Driver-resource events: chip open/close, line claim/free. -/
def isResourceEvent : Event → Bool
  | .openChip _ _ => true
  | .claimOutput _ _ _ => true
  | .claimAlert _ _ _ => true
  | .freeGpio _ _ _ => true
  | .closeChip _ _ => true
  | _ => false

def resourceTrace (tr : List Event) : List Event := tr.filter isResourceEvent

/-- A line-claim call that succeeded (non-negative status). -/
def isSuccessfulClaim : Event → Bool
  | .claimOutput _ _ r => decide (0 ≤ r)
  | .claimAlert _ _ r => decide (0 ≤ r)
  | _ => false

/-- A line-free call (the `finally` always performs it, whatever it returns). -/
def isFree : Event → Bool
  | .freeGpio _ _ _ => true
  | _ => false

def countClaims (tr : List Event) : ℕ := (tr.filter isSuccessfulClaim).length

def countFrees (tr : List Event) : ℕ := (tr.filter isFree).length

/-- A `tx_pwm` call with duty cycle 0. -/
def isZeroPwm : Event → Bool
  | .txPwm _ _ _ duty _ => decide (duty = 0)
  | _ => false

def countZeroPwm (tr : List Event) : ℕ := (tr.filter isZeroPwm).length

/-- Any `tx_pwm` call. -/
def isPwm : Event → Bool
  | .txPwm _ _ _ _ _ => true
  | _ => false

lemma roundHalfEven_intCast (n : ℤ) : roundHalfEven (n : ℚ) = n := by
  unfold roundHalfEven
  rw [Int.floor_intCast]
  norm_num

lemma roundHalfEven_int_add_half (n : ℤ) :
    roundHalfEven ((n : ℚ) + 1/2) = if Even n then n else n + 1 := by
  have hf : ⌊((n : ℚ) + 1/2)⌋ = n := by
    rw [Int.floor_int_add]
    norm_num [Int.floor_eq_zero_iff]
  unfold roundHalfEven
  rw [hf]
  have h2 : ((n : ℚ) + 1/2) - (n : ℤ) = 1/2 := by ring
  rw [h2]
  norm_num

lemma tempOf_45000 : tempOf 45000 = 45 := by
  unfold tempOf round2
  rw [show ((45000 : ℤ) : ℚ) / 1000 * 100 = ((4500 : ℤ) : ℚ) by norm_num,
    roundHalfEven_intCast]
  norm_num

lemma tempOf_70125 : tempOf 70125 = 70.12 := by
  unfold tempOf round2
  rw [show ((70125 : ℤ) : ℚ) / 1000 * 100 = ((7012 : ℤ) : ℚ) + 1/2 by norm_num,
    roundHalfEven_int_add_half]
  norm_num [Int.even_iff]

lemma pyFloatInt_70125 : pyFloatInt "70125" = some (70125 : ℤ) := by decide

lemma get_temp_70125 : get_temp "70125" = some 70.12 := by
  have h1 : get_temp "70125" = some (tempOf 70125) := by
    unfold get_temp
    rw [pyFloatInt_70125]
    rfl
  rw [h1, tempOf_70125]

lemma tdc_lt30 (t : ℚ) (h : t < 30) : temp_to_duty_cycle t = 0 := by
  simp [temp_to_duty_cycle, h]

lemma tdc_30_50 (t : ℚ) (h₁ : 30 ≤ t) (h₂ : t < 50) : temp_to_duty_cycle t = 40 := by
  unfold temp_to_duty_cycle
  rw [if_neg (not_lt.mpr h₁), if_pos ⟨h₂, h₁⟩]

lemma tdc_50_55 (t : ℚ) (h₁ : 50 ≤ t) (h₂ : t < 55) : temp_to_duty_cycle t = 50 := by
  unfold temp_to_duty_cycle
  rw [if_neg (not_lt.mpr (by linarith)),
    if_neg (fun hc => absurd hc.1 (not_lt.mpr h₁)), if_pos ⟨h₂, h₁⟩]

lemma tdc_55_60 (t : ℚ) (h₁ : 55 ≤ t) (h₂ : t < 60) : temp_to_duty_cycle t = 75 := by
  unfold temp_to_duty_cycle
  rw [if_neg (not_lt.mpr (by linarith)),
    if_neg (fun hc => absurd hc.1 (not_lt.mpr (by linarith))),
    if_neg (fun hc => absurd hc.1 (not_lt.mpr h₁)), if_pos ⟨h₂, h₁⟩]

lemma tdc_60_65 (t : ℚ) (h₁ : 60 ≤ t) (h₂ : t < 65) : temp_to_duty_cycle t = 90 := by
  unfold temp_to_duty_cycle
  rw [if_neg (not_lt.mpr (by linarith)),
    if_neg (fun hc => absurd hc.1 (not_lt.mpr (by linarith))),
    if_neg (fun hc => absurd hc.1 (not_lt.mpr (by linarith))),
    if_neg (fun hc => absurd hc.1 (not_lt.mpr h₁)), if_pos ⟨h₂, h₁⟩]

lemma tdc_ge65 (t : ℚ) (h₁ : 65 ≤ t) : temp_to_duty_cycle t = 100 := by
  unfold temp_to_duty_cycle
  rw [if_neg (not_lt.mpr (by linarith)),
    if_neg (fun hc => absurd hc.1 (not_lt.mpr (by linarith))),
    if_neg (fun hc => absurd hc.1 (not_lt.mpr (by linarith))),
    if_neg (fun hc => absurd hc.1 (not_lt.mpr (by linarith))),
    if_neg (fun hc => absurd hc.1 (not_lt.mpr h₁))]

lemma tdc_cases (t : ℚ) :
    temp_to_duty_cycle t =
      if t < 30 then 0 else if t < 50 then 40 else if t < 55 then 50
      else if t < 60 then 75 else if t < 65 then 90 else 100 := by
  by_cases h1 : t < 30
  · rw [tdc_lt30 t h1, if_pos h1]
  by_cases h2 : t < 50
  · rw [tdc_30_50 t (not_lt.mp h1) h2, if_neg h1, if_pos h2]
  by_cases h3 : t < 55
  · rw [tdc_50_55 t (not_lt.mp h2) h3, if_neg h1, if_neg h2, if_pos h3]
  by_cases h4 : t < 60
  · rw [tdc_55_60 t (not_lt.mp h3) h4, if_neg h1, if_neg h2, if_neg h3, if_pos h4]
  by_cases h5 : t < 65
  · rw [tdc_60_65 t (not_lt.mp h4) h5, if_neg h1, if_neg h2, if_neg h3, if_neg h4,
      if_pos h5]
  · rw [tdc_ge65 t (not_lt.mp h5), if_neg h1, if_neg h2, if_neg h3, if_neg h4, if_neg h5]

lemma fanLoop_events (h gpio freq : ℤ) (iters : List IterEnv) :
    ∀ e ∈ (fanLoop h gpio freq iters).trace,
      isResourceEvent e = false ∧ isSuccessfulClaim e = false ∧ isFree e = false := by
  induction iters with
  | nil => intro e he; simp [fanLoop] at he
  | cons i rest ih =>
    cases i with
    | cancelAtRead => intro e he; simp [fanLoop] at he
    | sensorFail => intro e he; simp [fanLoop] at he
    | reading m q c =>
      intro e he
      by_cases hq : q < 0
      · simp [fanLoop, hq] at he
        rcases he with rfl | rfl <;>
          simp [isResourceEvent, isSuccessfulClaim, isFree]
      · by_cases hc : c = true
        · simp [fanLoop, hq, hc] at he
          rcases he with rfl | rfl | rfl <;>
            simp [isResourceEvent, isSuccessfulClaim, isFree]
        · simp [fanLoop, hq, hc] at he
          rcases he with rfl | rfl | rfl | he
          · simp [isResourceEvent, isSuccessfulClaim, isFree]
          · simp [isResourceEvent, isSuccessfulClaim, isFree]
          · simp [isResourceEvent, isSuccessfulClaim, isFree]
          · exact ih e he

lemma gpio_claim_output_run (h gpio cl fr : ℤ) (body : Res)
    (hcl : 0 ≤ cl) (hb : body.ctl ≠ .fuelOut) :
    gpio_claim_output h gpio cl fr body =
      ⟨.claimOutput h gpio cl :: body.trace ++ [.freeGpio h gpio fr],
       if fr < 0 then .raised (raiseDuring .freeError body.ctl) else body.ctl⟩ := by
  unfold gpio_claim_output
  rw [if_neg (not_lt.mpr hcl), if_neg hb]
  by_cases hf : fr < 0 <;> simp [hf]

lemma gpio_claim_alert_run (h gpio cl fr : ℤ) (body : Res)
    (hcl : 0 ≤ cl) (hb : body.ctl ≠ .fuelOut) :
    gpio_claim_alert h gpio cl fr body =
      ⟨.claimAlert h gpio cl :: body.trace ++ [.freeGpio h gpio fr],
       if fr < 0 then .raised (raiseDuring .freeError body.ctl) else body.ctl⟩ := by
  unfold gpio_claim_alert
  rw [if_neg (not_lt.mpr hcl), if_neg hb]
  by_cases hf : fr < 0 <;> simp [hf]

lemma gpiochip_run (chip o c : ℤ) (body : ℤ → Res)
    (ho : 0 ≤ o) (hb : (body o).ctl ≠ .fuelOut) :
    gpiochip chip o c body =
      ⟨.openChip chip o :: (body o).trace ++ [.closeChip o c],
       if c < 0 then .raised (raiseDuring .closeError (body o).ctl) else (body o).ctl⟩ := by
  unfold gpiochip
  rw [if_neg (not_lt.mpr ho), if_neg hb]
  by_cases hf : c < 0 <;> simp [hf]

lemma tryBody_cancelled (h gpio freq : ℤ) (iters : List IterEnv) (cp : ℤ)
    (hc : (fanLoop h gpio freq iters).stop = .cancelled) :
    tryBody h gpio freq iters cp =
      ⟨(fanLoop h gpio freq iters).trace ++ [.txPwm h gpio freq 0 cp],
       if cp < 0 then .raised ⟨.pwmError, [.cancelled]⟩ else .raised ⟨.cancelled, []⟩⟩ := by
  simp only [tryBody]
  rw [hc]
  by_cases hf : cp < 0 <;> simp [hf]

lemma tryBody_sensorError (h gpio freq : ℤ) (iters : List IterEnv) (cp : ℤ)
    (hc : (fanLoop h gpio freq iters).stop = .sensorError) :
    tryBody h gpio freq iters cp =
      ⟨(fanLoop h gpio freq iters).trace, .raised ⟨.sensorError, []⟩⟩ := by
  unfold tryBody
  rw [hc]
  simp

lemma tryBody_pwmError (h gpio freq : ℤ) (iters : List IterEnv) (cp : ℤ)
    (hc : (fanLoop h gpio freq iters).stop = .pwmError) :
    tryBody h gpio freq iters cp =
      ⟨(fanLoop h gpio freq iters).trace, .raised ⟨.pwmError, []⟩⟩ := by
  unfold tryBody
  rw [hc]
  simp

/-- C5: the duty-cycle curve maps every temperature per the vendor table with
inclusive lower and exclusive upper bounds — below 30 gives 0, [30,50) gives
40, [50,55) gives 50, [55,60) gives 75, [60,65) gives 90, 65 and above gives
100 — and in particular takes the claimed values at 29.99, 30.00, 49.99,
50.00, 54.99, 55.00, 59.99, 60.00, 64.99 and 65.00. -/
theorem c5_curve_boundaries :
    (∀ t : ℚ, t < 30 → temp_to_duty_cycle t = 0) ∧
    (∀ t : ℚ, 30 ≤ t → t < 50 → temp_to_duty_cycle t = 40) ∧
    (∀ t : ℚ, 50 ≤ t → t < 55 → temp_to_duty_cycle t = 50) ∧
    (∀ t : ℚ, 55 ≤ t → t < 60 → temp_to_duty_cycle t = 75) ∧
    (∀ t : ℚ, 60 ≤ t → t < 65 → temp_to_duty_cycle t = 90) ∧
    (∀ t : ℚ, 65 ≤ t → temp_to_duty_cycle t = 100) ∧
    temp_to_duty_cycle 29.99 = 0 ∧ temp_to_duty_cycle 30.00 = 40 ∧
    temp_to_duty_cycle 49.99 = 40 ∧ temp_to_duty_cycle 50.00 = 50 ∧
    temp_to_duty_cycle 54.99 = 50 ∧ temp_to_duty_cycle 55.00 = 75 ∧
    temp_to_duty_cycle 59.99 = 75 ∧ temp_to_duty_cycle 60.00 = 90 ∧
    temp_to_duty_cycle 64.99 = 90 ∧ temp_to_duty_cycle 65.00 = 100 :=
  ⟨tdc_lt30, tdc_30_50, tdc_50_55, tdc_55_60, tdc_60_65, tdc_ge65,
    tdc_lt30 _ (by norm_num), tdc_30_50 _ (by norm_num) (by norm_num),
    tdc_30_50 _ (by norm_num) (by norm_num), tdc_50_55 _ (by norm_num) (by norm_num),
    tdc_50_55 _ (by norm_num) (by norm_num), tdc_55_60 _ (by norm_num) (by norm_num),
    tdc_55_60 _ (by norm_num) (by norm_num), tdc_60_65 _ (by norm_num) (by norm_num),
    tdc_60_65 _ (by norm_num) (by norm_num), tdc_ge65 _ (by norm_num)⟩

/-- Witness for C5 at a concrete temperature. -/
theorem c5_curve_boundaries_witness : temp_to_duty_cycle 25 = 0 :=
  c5_curve_boundaries.1 25 (by norm_num)

/-- C6: the duty-cycle curve is total (a Lean function), its value always lies
in {0, 40, 50, 75, 90, 100}, and it is monotone non-decreasing. -/
theorem c6_total_monotone :
    (∀ t : ℚ, temp_to_duty_cycle t ∈ ([0, 40, 50, 75, 90, 100] : List ℤ)) ∧
    (∀ t₁ t₂ : ℚ, t₁ ≤ t₂ → temp_to_duty_cycle t₁ ≤ temp_to_duty_cycle t₂) := by
  constructor
  · intro t
    rw [tdc_cases]
    split_ifs <;> simp
  · intro t₁ t₂ hle
    rw [tdc_cases, tdc_cases]
    split_ifs <;> linarith

/-- Witness for C6 at concrete temperatures. -/
theorem c6_total_monotone_witness : temp_to_duty_cycle 20 ≤ temp_to_duty_cycle 70 :=
  c6_total_monotone.2 20 70 (by norm_num)

/-- C7 counterexample: for sensor file contents `70125` the code does NOT
return 70.13.  `70125 / 1000 = 70.125` is exactly representable as a double,
and CPython's `'%.2f'` formatting rounds the tie to even, producing 70.12. -/
theorem c7_counterexample : get_temp "70125" ≠ some (70.13 : ℚ) := by
  rw [get_temp_70125]
  intro hcontra
  rw [Option.some_inj] at hcontra
  norm_num at hcontra

/-- C7 amended: the temperature read parses the entire contents as an integer
number of milli-degrees and returns degrees Celsius rounded to two decimal
places (ties to even), failing when the contents are not a valid number; for
contents `70125` it returns 70.12, and the loop then computes duty cycle
100. -/
theorem c7_amended :
    get_temp "70125" = some (70.12 : ℚ) ∧
    temp_to_duty_cycle 70.12 = 100 ∧
    get_temp "garbage" = none ∧
    get_temp "" = none :=
  ⟨get_temp_70125, tdc_ge65 _ (by norm_num), by decide, by decide⟩

/-- C9: a tachometer edge arriving less than 5 ms after the previous accepted
edge changes neither the stored RPM nor the stored timestamp; otherwise the
RPM becomes `(1 / dt / 2) * 60` (pulses per revolution fixed at 2) and the
timestamp is updated; two falling edges 0.030 s apart give exactly 1000 RPM,
and an edge 0.002 s after the previous one is ignored. -/
theorem c9_tachometer :
    (∀ (s : Tachometer) (now₁ now₂ : ℚ), now₁ - s.t < 5/1000 →
      s.fell now₁ now₂ = s) ∧
    (∀ (s : Tachometer) (now₁ now₂ : ℚ), 5/1000 ≤ now₁ - s.t →
      s.fell now₁ now₂ = ⟨now₂, 1 / (now₁ - s.t) / 2 * 60⟩) ∧
    (∀ t₀ r : ℚ,
      Tachometer.fell ⟨t₀, r⟩ (t₀ + 0.030) (t₀ + 0.030) = ⟨t₀ + 0.030, 1000⟩) ∧
    (∀ t₀ r : ℚ,
      Tachometer.fell ⟨t₀, r⟩ (t₀ + 0.002) (t₀ + 0.002) = ⟨t₀, r⟩) := by
  refine ⟨?_, ?_, ?_, ?_⟩
  · intro s n₁ n₂ h
    simp only [Tachometer.fell, if_pos h]
  · intro s n₁ n₂ h
    simp only [Tachometer.fell, if_neg (not_lt.mpr h)]
  · intro t₀ r
    have hd : t₀ + 0.030 - t₀ = (0.030 : ℚ) := by ring
    unfold Tachometer.fell
    rw [if_neg (by rw [hd]; norm_num)]
    rw [hd]
    norm_num [Tachometer.mk.injEq]
  · intro t₀ r
    have hd : t₀ + 0.002 - t₀ = (0.002 : ℚ) := by ring
    unfold Tachometer.fell
    rw [if_pos (by rw [hd]; norm_num)]

/-- Witness for C9: a 1 ms edge is debounced. -/
theorem c9_tachometer_witness : Tachometer.fell ⟨0, 5⟩ 0.001 0.001 = ⟨0, 5⟩ :=
  c9_tachometer.1 ⟨0, 5⟩ 0.001 0.001 (by norm_num)

/-- The control outcome after the two `finally` release steps (`gpio_free`
with status `fr`, then `gpiochip_close` with status `cl`) run over a body
that finished with `ctl`. -/
def releaseCtl (fr cl : ℤ) (ctl : Ctl) : Ctl :=
  if cl < 0 then
    .raised (raiseDuring .closeError
      (if fr < 0 then .raised (raiseDuring .freeError ctl) else ctl))
  else if fr < 0 then .raised (raiseDuring .freeError ctl) else ctl

lemma tryBody_ctl_ne_fuelOut (h gpio freq : ℤ) (iters : List IterEnv) (cp : ℤ)
    (hnf : (fanLoop h gpio freq iters).stop ≠ .fuelOut) :
    (tryBody h gpio freq iters cp).ctl ≠ .fuelOut := by
  unfold tryBody
  split_ifs <;> simp_all

/-- Closed form for a complete (`fanLoop` did not run out of fuel) run of
`fan_control` with successful open and claim. -/
lemma fan_control_run (chip gpio : ℤ) (env : Env)
    (hopen : 0 ≤ env.openResult) (hclaim : 0 ≤ env.claimResult)
    (hnf : (fanLoop env.openResult gpio FREQUENCY env.iters).stop ≠ .fuelOut) :
    fan_control chip gpio env =
      ⟨Event.openChip chip env.openResult ::
        Event.claimOutput env.openResult gpio env.claimResult ::
        (tryBody env.openResult gpio FREQUENCY env.iters env.cancelPwmResult).trace ++
        [Event.freeGpio env.openResult gpio env.freeResult,
         Event.closeChip env.openResult env.closeResult],
       releaseCtl env.freeResult env.closeResult
         (tryBody env.openResult gpio FREQUENCY env.iters env.cancelPwmResult).ctl⟩ := by
  have hY := tryBody_ctl_ne_fuelOut env.openResult gpio FREQUENCY env.iters
    env.cancelPwmResult hnf
  have hX := gpio_claim_output_run env.openResult gpio env.claimResult env.freeResult
    (tryBody env.openResult gpio FREQUENCY env.iters env.cancelPwmResult) hclaim hY
  have hXne : (gpio_claim_output env.openResult gpio env.claimResult env.freeResult
      (tryBody env.openResult gpio FREQUENCY env.iters env.cancelPwmResult)).ctl ≠
      .fuelOut := by
    rw [hX]
    by_cases hf : env.freeResult < 0 <;> simp [hf, hY]
  unfold fan_control
  rw [gpiochip_run chip env.openResult env.closeResult
    (fun h => fan_control_chiphandle h gpio env) hopen hXne]
  simp only [fan_control_chiphandle]
  rw [hX]
  by_cases hc : env.closeResult < 0 <;>
    by_cases hf : env.freeResult < 0 <;>
    simp [hc, hf, releaseCtl, List.append_assoc]

lemma tryBody_events (h gpio freq : ℤ) (iters : List IterEnv) (cp : ℤ) :
    ∀ e ∈ (tryBody h gpio freq iters cp).trace,
      isResourceEvent e = false ∧ isSuccessfulClaim e = false ∧ isFree e = false := by
  intro e he
  unfold tryBody at he
  split_ifs at he <;>
    first
    | exact fanLoop_events _ _ _ _ e he
    | (rcases List.mem_append.mp he with h' | h'
       · exact fanLoop_events _ _ _ _ e h'
       · simp only [List.mem_singleton] at h'
         subst h'
         simp [isResourceEvent, isSuccessfulClaim, isFree])

/-- C3: whenever a release step (`gpio_free` or `gpiochip_close`) returns a
negative status while an error from the body is already propagating, the
propagated exception surfaces both: its class is the release failure and its
context chain contains the original error's class and the original error's
whole chain — the original error is not discarded. -/
theorem c3_release_failure_surfaces_both :
    (∀ (chip o c : ℤ) (body : ℤ → Res) (e : Exc), 0 ≤ o →
      (body o).ctl = .raised e → c < 0 →
      (gpiochip chip o c body).ctl = .raised ⟨.closeError, e.kind :: e.context⟩) ∧
    (∀ (h gpio cl f : ℤ) (b : Res) (e : Exc), 0 ≤ cl →
      b.ctl = .raised e → f < 0 →
      (gpio_claim_output h gpio cl f b).ctl = .raised ⟨.freeError, e.kind :: e.context⟩) ∧
    (∀ (h gpio cl f : ℤ) (b : Res) (e : Exc), 0 ≤ cl →
      b.ctl = .raised e → f < 0 →
      (gpio_claim_alert h gpio cl f b).ctl = .raised ⟨.freeError, e.kind :: e.context⟩) := by
  refine ⟨?_, ?_, ?_⟩
  · intro chip o c body e ho hb hc
    rw [gpiochip_run chip o c body ho (by rw [hb]; simp)]
    simp [hc, hb, raiseDuring]
  · intro h gpio cl f b e hcl hb hf
    rw [gpio_claim_output_run h gpio cl f b hcl (by rw [hb]; simp)]
    simp [hf, hb, raiseDuring]
  · intro h gpio cl f b e hcl hb hf
    rw [gpio_claim_alert_run h gpio cl f b hcl (by rw [hb]; simp)]
    simp [hf, hb, raiseDuring]

/-- Witness for C3: a failing close while a sensor error propagates yields a
close error whose context carries the sensor error. -/
theorem c3_release_failure_surfaces_both_witness :
    (gpiochip 0 0 (-1) (fun _ => ⟨[], .raised ⟨.sensorError, []⟩⟩)).ctl =
      .raised ⟨.closeError, [.sensorError]⟩ :=
  c3_release_failure_surfaces_both.1 0 0 (-1)
    (fun _ => ⟨[], .raised ⟨.sensorError, []⟩⟩) ⟨.sensorError, []⟩
    (by norm_num) rfl (by norm_num)

/-- C1: whenever cancellation is delivered at any suspension point of the
sample-compute-actuate cycle, the remainder of the run consists of exactly
one PWM-set call with duty cycle 0 on the claimed line, then the free of that
line, then the close of the chip handle — so the duty-0 call happens after
cancellation, exactly once, before the free and before the close. -/
theorem c1_cancel_zero_pwm_before_free (chip gpio : ℤ) (env : Env)
    (hopen : 0 ≤ env.openResult) (hclaim : 0 ≤ env.claimResult)
    (hcancel : (fanLoop env.openResult gpio FREQUENCY env.iters).stop = .cancelled) :
    (fan_control chip gpio env).trace =
      (Event.openChip chip env.openResult ::
        Event.claimOutput env.openResult gpio env.claimResult ::
        (fanLoop env.openResult gpio FREQUENCY env.iters).trace) ++
      [Event.txPwm env.openResult gpio FREQUENCY 0 env.cancelPwmResult,
       Event.freeGpio env.openResult gpio env.freeResult,
       Event.closeChip env.openResult env.closeResult] ∧
    (fan_control chip gpio env).trace.drop
        ((fanLoop env.openResult gpio FREQUENCY env.iters).trace.length + 2) =
      [Event.txPwm env.openResult gpio FREQUENCY 0 env.cancelPwmResult,
       Event.freeGpio env.openResult gpio env.freeResult,
       Event.closeChip env.openResult env.closeResult] ∧
    countZeroPwm
      ((fan_control chip gpio env).trace.drop
        ((fanLoop env.openResult gpio FREQUENCY env.iters).trace.length + 2)) = 1 := by
  have hrun := fan_control_run chip gpio env hopen hclaim (by rw [hcancel]; simp)
  have htb := tryBody_cancelled env.openResult gpio FREQUENCY env.iters
    env.cancelPwmResult hcancel
  have htrace : (fan_control chip gpio env).trace =
      (Event.openChip chip env.openResult ::
        Event.claimOutput env.openResult gpio env.claimResult ::
        (fanLoop env.openResult gpio FREQUENCY env.iters).trace) ++
      [Event.txPwm env.openResult gpio FREQUENCY 0 env.cancelPwmResult,
       Event.freeGpio env.openResult gpio env.freeResult,
       Event.closeChip env.openResult env.closeResult] := by
    rw [hrun, htb]
    simp [List.append_assoc]
  have hlen : (fanLoop env.openResult gpio FREQUENCY env.iters).trace.length + 2 =
      (Event.openChip chip env.openResult ::
        Event.claimOutput env.openResult gpio env.claimResult ::
        (fanLoop env.openResult gpio FREQUENCY env.iters).trace).length := by
    simp [List.length_cons]
  have hdrop : (fan_control chip gpio env).trace.drop
      ((fanLoop env.openResult gpio FREQUENCY env.iters).trace.length + 2) =
      [Event.txPwm env.openResult gpio FREQUENCY 0 env.cancelPwmResult,
       Event.freeGpio env.openResult gpio env.freeResult,
       Event.closeChip env.openResult env.closeResult] := by
    rw [htrace, hlen, List.drop_left]
  exact ⟨htrace, hdrop, by rw [hdrop]; simp [countZeroPwm, isZeroPwm]⟩

/-- Witness for C1: cancellation at the first temperature read. -/
theorem c1_cancel_zero_pwm_before_free_witness :
    (fan_control 0 13 ⟨0, 0, [.cancelAtRead], 0, 0, 0⟩).trace =
      [Event.openChip 0 0, Event.claimOutput 0 13 0, Event.txPwm 0 13 20 0 0,
       Event.freeGpio 0 13 0, Event.closeChip 0 0] ∧
    (fan_control 0 13 ⟨0, 0, [.cancelAtRead], 0, 0, 0⟩).trace.drop 2 =
      [Event.txPwm 0 13 20 0 0, Event.freeGpio 0 13 0, Event.closeChip 0 0] ∧
    countZeroPwm ((fan_control 0 13 ⟨0, 0, [.cancelAtRead], 0, 0, 0⟩).trace.drop 2) = 1 :=
  c1_cancel_zero_pwm_before_free 0 13 ⟨0, 0, [.cancelAtRead], 0, 0, 0⟩
    (by norm_num) (by norm_num) rfl

/-- C2 counterexample: cancellation is delivered at the first read and the
forced duty-0 actuation fails (`tx_pwm` returns -1, free and close succeed).
The loop's outcome is the actuator error, not the cancellation: the
`raise lgpio.error(...)` in the `except` handler replaces the propagating
`CancelledError` (which survives only as chained context), and the final
`raise` re-raising the cancellation is never reached. -/
theorem c2_counterexample :
    (fanLoop 0 13 FREQUENCY [.cancelAtRead]).stop = .cancelled ∧
    (fan_control 0 13 ⟨0, 0, [.cancelAtRead], -1, 0, 0⟩).ctl =
      .raised ⟨.pwmError, [.cancelled]⟩ ∧
    ∀ e : Exc, (fan_control 0 13 ⟨0, 0, [.cancelAtRead], -1, 0, 0⟩).ctl = .raised e →
      e.kind ≠ .cancelled := by
  refine ⟨rfl, by decide, ?_⟩
  intro e he hk
  rw [show (fan_control 0 13 ⟨0, 0, [.cancelAtRead], -1, 0, 0⟩).ctl =
      .raised ⟨.pwmError, [.cancelled]⟩ by decide] at he
  rw [Ctl.raised.injEq] at he
  rw [← he] at hk
  exact absurd hk (by decide)

/-- C2 amended: when the loop is cancelled, the outcome the caller observes
always carries the cancellation in its exception chain; it is the
cancellation itself exactly when the forced duty-0 actuation and both
release steps succeed, while a failing forced actuation (or release) makes
that failure the primary exception, with the cancellation only as chained
context. -/
theorem c2_cancellation_outcome (chip gpio : ℤ) (env : Env)
    (hopen : 0 ≤ env.openResult) (hclaim : 0 ≤ env.claimResult)
    (hcancel : (fanLoop env.openResult gpio FREQUENCY env.iters).stop = .cancelled) :
    (∃ e : Exc, (fan_control chip gpio env).ctl = .raised e ∧
      (e.kind = .cancelled ∨ .cancelled ∈ e.context)) ∧
    (0 ≤ env.cancelPwmResult → 0 ≤ env.freeResult → 0 ≤ env.closeResult →
      (fan_control chip gpio env).ctl = .raised ⟨.cancelled, []⟩) ∧
    (env.cancelPwmResult < 0 → 0 ≤ env.freeResult → 0 ≤ env.closeResult →
      (fan_control chip gpio env).ctl = .raised ⟨.pwmError, [.cancelled]⟩) := by
  have hrun := fan_control_run chip gpio env hopen hclaim (by rw [hcancel]; simp)
  have htb := tryBody_cancelled env.openResult gpio FREQUENCY env.iters
    env.cancelPwmResult hcancel
  rw [hrun]
  refine ⟨?_, ?_, ?_⟩
  · by_cases hcp : env.cancelPwmResult < 0 <;>
      by_cases hf : env.freeResult < 0 <;>
      by_cases hc : env.closeResult < 0 <;>
      simp [releaseCtl, htb, raiseDuring, hcp, hf, hc]
  · intro h1 h2 h3
    simp [releaseCtl, htb, not_lt.mpr h1, not_lt.mpr h2, not_lt.mpr h3]
  · intro h1 h2 h3
    simp [releaseCtl, htb, h1, not_lt.mpr h2, not_lt.mpr h3]

/-- Witness for C2's amended theorem: cancellation at the first read with all
statuses non-negative yields the plain cancellation outcome. -/
theorem c2_cancellation_outcome_witness :
    (∃ e : Exc, (fan_control 0 13 ⟨0, 0, [.cancelAtRead], 0, 0, 0⟩).ctl = .raised e ∧
      (e.kind = .cancelled ∨ .cancelled ∈ e.context)) ∧
    ((0 : ℤ) ≤ 0 → (0 : ℤ) ≤ 0 → (0 : ℤ) ≤ 0 →
      (fan_control 0 13 ⟨0, 0, [.cancelAtRead], 0, 0, 0⟩).ctl =
        .raised ⟨.cancelled, []⟩) ∧
    ((0 : ℤ) < 0 → (0 : ℤ) ≤ 0 → (0 : ℤ) ≤ 0 →
      (fan_control 0 13 ⟨0, 0, [.cancelAtRead], 0, 0, 0⟩).ctl =
        .raised ⟨.pwmError, [.cancelled]⟩) :=
  c2_cancellation_outcome 0 13 ⟨0, 0, [.cancelAtRead], 0, 0, 0⟩
    (by norm_num) (by norm_num) rfl

/-- C10: when a fatal sensor or PWM error (not a cancellation) stops the
loop, the run after the failing point consists of exactly the line free and
the chip close — no further PWM-set call of any kind, in particular no
forced duty-0 actuation, happens between the error and the release steps. -/
theorem c10_fatal_error_no_zero_pwm (chip gpio : ℤ) (env : Env)
    (hopen : 0 ≤ env.openResult) (hclaim : 0 ≤ env.claimResult)
    (hstop : (fanLoop env.openResult gpio FREQUENCY env.iters).stop = .sensorError ∨
      (fanLoop env.openResult gpio FREQUENCY env.iters).stop = .pwmError) :
    (fan_control chip gpio env).trace =
      (Event.openChip chip env.openResult ::
        Event.claimOutput env.openResult gpio env.claimResult ::
        (fanLoop env.openResult gpio FREQUENCY env.iters).trace) ++
      [Event.freeGpio env.openResult gpio env.freeResult,
       Event.closeChip env.openResult env.closeResult] ∧
    (fan_control chip gpio env).trace.drop
        ((fanLoop env.openResult gpio FREQUENCY env.iters).trace.length + 2) =
      [Event.freeGpio env.openResult gpio env.freeResult,
       Event.closeChip env.openResult env.closeResult] ∧
    ((fan_control chip gpio env).trace.drop
        ((fanLoop env.openResult gpio FREQUENCY env.iters).trace.length + 2)).filter
      isPwm = [] := by
  have hnf : (fanLoop env.openResult gpio FREQUENCY env.iters).stop ≠ .fuelOut := by
    rcases hstop with h | h <;> rw [h] <;> simp
  have hrun := fan_control_run chip gpio env hopen hclaim hnf
  have htb : (tryBody env.openResult gpio FREQUENCY env.iters env.cancelPwmResult).trace =
      (fanLoop env.openResult gpio FREQUENCY env.iters).trace := by
    rcases hstop with h | h
    · rw [tryBody_sensorError _ _ _ _ _ h]
    · rw [tryBody_pwmError _ _ _ _ _ h]
  have htrace : (fan_control chip gpio env).trace =
      (Event.openChip chip env.openResult ::
        Event.claimOutput env.openResult gpio env.claimResult ::
        (fanLoop env.openResult gpio FREQUENCY env.iters).trace) ++
      [Event.freeGpio env.openResult gpio env.freeResult,
       Event.closeChip env.openResult env.closeResult] := by
    rw [hrun]
    simp [htb, List.append_assoc]
  have hlen : (fanLoop env.openResult gpio FREQUENCY env.iters).trace.length + 2 =
      (Event.openChip chip env.openResult ::
        Event.claimOutput env.openResult gpio env.claimResult ::
        (fanLoop env.openResult gpio FREQUENCY env.iters).trace).length := by
    simp [List.length_cons]
  have hdrop : (fan_control chip gpio env).trace.drop
      ((fanLoop env.openResult gpio FREQUENCY env.iters).trace.length + 2) =
      [Event.freeGpio env.openResult gpio env.freeResult,
       Event.closeChip env.openResult env.closeResult] := by
    rw [htrace, hlen, List.drop_left]
  exact ⟨htrace, hdrop, by rw [hdrop]; simp [isPwm]⟩

/-- Witness for C10: a sensor failure on the first iteration. -/
theorem c10_fatal_error_no_zero_pwm_witness :
    (fan_control 0 13 ⟨0, 0, [.sensorFail], 0, 0, 0⟩).trace =
      [Event.openChip 0 0, Event.claimOutput 0 13 0, Event.freeGpio 0 13 0,
       Event.closeChip 0 0] ∧
    (fan_control 0 13 ⟨0, 0, [.sensorFail], 0, 0, 0⟩).trace.drop 2 =
      [Event.freeGpio 0 13 0, Event.closeChip 0 0] ∧
    ((fan_control 0 13 ⟨0, 0, [.sensorFail], 0, 0, 0⟩).trace.drop 2).filter isPwm = [] :=
  c10_fatal_error_no_zero_pwm 0 13 ⟨0, 0, [.sensorFail], 0, 0, 0⟩
    (by norm_num) (by norm_num) (Or.inl rfl)

/-- Closed form for `read_fan_speed.py`'s `main` with successful open and
alert claim. -/
lemma read_fan_speed_run (env : Env)
    (hopen : 0 ≤ env.openResult) (hclaim : 0 ≤ env.claimResult) :
    read_fan_speed_main env =
      ⟨Event.openChip 0 env.openResult ::
        Event.claimAlert env.openResult 16 env.claimResult ::
        (List.replicate 30 Event.sleep ++ [Event.callbackCancel]) ++
        [Event.freeGpio env.openResult 16 env.freeResult,
         Event.closeChip env.openResult env.closeResult],
       releaseCtl env.freeResult env.closeResult .done⟩ := by
  have hcb : gpio_callback read_fan_speed_body =
      ⟨List.replicate 30 Event.sleep ++ [Event.callbackCancel], .done⟩ := rfl
  have hA := gpio_claim_alert_run env.openResult 16 env.claimResult env.freeResult
    (gpio_callback read_fan_speed_body) hclaim (by rw [hcb]; simp)
  have hAne : (gpio_claim_alert env.openResult 16 env.claimResult env.freeResult
      (gpio_callback read_fan_speed_body)).ctl ≠ .fuelOut := by
    rw [hA]
    by_cases hf : env.freeResult < 0 <;> simp [hf, hcb]
  unfold read_fan_speed_main
  rw [gpiochip_run 0 env.openResult env.closeResult _ hopen hAne]
  rw [hA, hcb]
  by_cases hc : env.closeResult < 0 <;>
    by_cases hf : env.freeResult < 0 <;>
    simp [hc, hf, releaseCtl, raiseDuring, List.append_assoc]

/-- C4: for a completed run with successful open and claim, the resource
events of `fan_control` are exactly open, claim, free, close in that order —
one free per claim, the free strictly before the owning chip handle's close —
whatever the loop's exit path (error or cancellation) and whatever the
release statuses; and likewise for `read_fan_speed.py`'s `main` (normal
return path) with its alert claim. -/
theorem c4_resource_roundtrip (chip gpio : ℤ) (env : Env)
    (hopen : 0 ≤ env.openResult) (hclaim : 0 ≤ env.claimResult)
    (hnf : (fanLoop env.openResult gpio FREQUENCY env.iters).stop ≠ .fuelOut) :
    resourceTrace (fan_control chip gpio env).trace =
      [Event.openChip chip env.openResult,
       Event.claimOutput env.openResult gpio env.claimResult,
       Event.freeGpio env.openResult gpio env.freeResult,
       Event.closeChip env.openResult env.closeResult] ∧
    countClaims (fan_control chip gpio env).trace = 1 ∧
    countFrees (fan_control chip gpio env).trace = 1 ∧
    resourceTrace (read_fan_speed_main env).trace =
      [Event.openChip 0 env.openResult,
       Event.claimAlert env.openResult 16 env.claimResult,
       Event.freeGpio env.openResult 16 env.freeResult,
       Event.closeChip env.openResult env.closeResult] ∧
    countClaims (read_fan_speed_main env).trace = 1 ∧
    countFrees (read_fan_speed_main env).trace = 1 := by
  have hrun := fan_control_run chip gpio env hopen hclaim hnf
  have hev := tryBody_events env.openResult gpio FREQUENCY env.iters env.cancelPwmResult
  have hres : (tryBody env.openResult gpio FREQUENCY env.iters
      env.cancelPwmResult).trace.filter isResourceEvent = [] :=
    List.filter_eq_nil_iff.mpr (fun a ha => by simp [(hev a ha).1])
  have hcla : (tryBody env.openResult gpio FREQUENCY env.iters
      env.cancelPwmResult).trace.filter isSuccessfulClaim = [] :=
    List.filter_eq_nil_iff.mpr (fun a ha => by simp [(hev a ha).2.1])
  have hfre : (tryBody env.openResult gpio FREQUENCY env.iters
      env.cancelPwmResult).trace.filter isFree = [] :=
    List.filter_eq_nil_iff.mpr (fun a ha => by simp [(hev a ha).2.2])
  have hrsr := read_fan_speed_run env hopen hclaim
  have hsl : ∀ p : Event → Bool, p Event.sleep = false → p Event.callbackCancel = false →
      (List.replicate 30 Event.sleep ++ [Event.callbackCancel]).filter p = [] := by
    intro p hs hcc
    refine List.filter_eq_nil_iff.mpr (fun a ha => ?_)
    rcases List.mem_append.mp ha with h' | h'
    · rw [List.eq_of_mem_replicate h']
      simp [hs]
    · simp only [List.mem_singleton] at h'
      subst h'
      simp [hcc]
  refine ⟨?_, ?_, ?_, ?_, ?_, ?_⟩
  · rw [hrun]
    simp [resourceTrace, List.filter_append, hres, isResourceEvent]
  · rw [hrun]
    simp [countClaims, List.filter_append, hcla, isSuccessfulClaim, hclaim]
  · rw [hrun]
    simp [countFrees, List.filter_append, hfre, isFree, isSuccessfulClaim]
  · rw [hrsr]
    simp [resourceTrace, List.filter_append, hsl isResourceEvent rfl rfl, isResourceEvent]
  · rw [hrsr]
    simp [countClaims, List.filter_append, hsl isSuccessfulClaim rfl rfl,
      isSuccessfulClaim, hclaim]
  · rw [hrsr]
    simp [countFrees, List.filter_append, hsl isFree rfl rfl, isFree]

/-- Witness for C4: a first-iteration sensor failure. -/
theorem c4_resource_roundtrip_witness :
    resourceTrace (fan_control 0 13 ⟨0, 0, [.sensorFail], 0, 0, 0⟩).trace =
      [Event.openChip 0 0, Event.claimOutput 0 13 0, Event.freeGpio 0 13 0,
       Event.closeChip 0 0] ∧
    countClaims (fan_control 0 13 ⟨0, 0, [.sensorFail], 0, 0, 0⟩).trace = 1 ∧
    countFrees (fan_control 0 13 ⟨0, 0, [.sensorFail], 0, 0, 0⟩).trace = 1 ∧
    resourceTrace (read_fan_speed_main ⟨0, 0, [.sensorFail], 0, 0, 0⟩).trace =
      [Event.openChip 0 0, Event.claimAlert 0 16 0, Event.freeGpio 0 16 0,
       Event.closeChip 0 0] ∧
    countClaims (read_fan_speed_main ⟨0, 0, [.sensorFail], 0, 0, 0⟩).trace = 1 ∧
    countFrees (read_fan_speed_main ⟨0, 0, [.sensorFail], 0, 0, 0⟩).trace = 1 :=
  c4_resource_roundtrip 0 13 ⟨0, 0, [.sensorFail], 0, 0, 0⟩
    (by norm_num) (by norm_num) (by decide)

lemma fanLoop_reading_shape (h gpio freq m q : ℤ) (c : Bool) (rest : List IterEnv) :
    ∃ tail, (fanLoop h gpio freq (.reading m q c :: rest)).trace =
      .getTemp (tempOf m) :: .txPwm h gpio freq (temp_to_duty_cycle (tempOf m)) q :: tail := by
  by_cases hq : q < 0
  · exact ⟨[], by simp [fanLoop, hq]⟩
  · by_cases hc : c = true
    · exact ⟨[.sleep], by simp [fanLoop, hq, hc]⟩
    · exact ⟨.sleep :: (fanLoop h gpio freq rest).trace, by simp [fanLoop, hq, hc]⟩

lemma tryBody_reading_shape (h gpio freq m q : ℤ) (c : Bool) (rest : List IterEnv)
    (cp : ℤ) :
    ∃ tail, (tryBody h gpio freq (.reading m q c :: rest) cp).trace =
      .getTemp (tempOf m) :: .txPwm h gpio freq (temp_to_duty_cycle (tempOf m)) q :: tail := by
  obtain ⟨tail, ht⟩ := fanLoop_reading_shape h gpio freq m q c rest
  unfold tryBody
  split_ifs <;> rw [ht] <;> exact ⟨_, rfl⟩

lemma chiphandle_take3 (h gpio freq cl fr cp m q : ℤ) (c : Bool) (rest : List IterEnv)
    (hclaim : 0 ≤ cl) :
    (gpio_claim_output h gpio cl fr
        (tryBody h gpio freq (.reading m q c :: rest) cp)).trace.take 3 =
      [.claimOutput h gpio cl, .getTemp (tempOf m),
       .txPwm h gpio freq (temp_to_duty_cycle (tempOf m)) q] := by
  obtain ⟨tail, ht⟩ := tryBody_reading_shape h gpio freq m q c rest cp
  by_cases hfo : (tryBody h gpio freq (.reading m q c :: rest) cp).ctl = .fuelOut
  · unfold gpio_claim_output
    rw [if_neg (not_lt.mpr hclaim), if_pos hfo]
    simp [ht]
  · rw [gpio_claim_output_run h gpio cl fr _ hclaim hfo]
    simp [ht]

/-- C8 counterexample: in `pwm_fan_control.py` (one of the two modules the
scenario describes), an iteration with sensor reading 45000 computes duty
cycle 40 but invokes `tx_pwm` with `FREQUENCY = 10`, and the run contains no
PWM-set call at 20 Hz at all — contradicting the claimed frequency of
20 Hz. -/
theorem c8_counterexample :
    (pwm_fan_control_chiphandle 0 13 ⟨0, 0, [.reading 45000 0 true], 0, 0, 0⟩).trace =
      [.claimOutput 0 13 0, .getTemp 45, .txPwm 0 13 10 40 0, .sleep,
       .txPwm 0 13 10 0 0, .freeGpio 0 13 0] ∧
    (∀ e ∈ (pwm_fan_control_chiphandle 0 13
        ⟨0, 0, [.reading 45000 0 true], 0, 0, 0⟩).trace,
      ∀ d r : ℤ, e ≠ .txPwm 0 13 20 d r) := by
  have hd : temp_to_duty_cycle (45 : ℚ) = 40 := tdc_30_50 45 (by norm_num) (by norm_num)
  have hloop : fanLoop 0 13 PWM_FREQUENCY [.reading 45000 0 true] =
      ⟨[.getTemp 45, .txPwm 0 13 10 40 0, .sleep], .cancelled⟩ := by
    simp [fanLoop, PWM_FREQUENCY, tempOf_45000, hd]
  have htb : tryBody 0 13 PWM_FREQUENCY [.reading 45000 0 true] 0 =
      ⟨[.getTemp 45, .txPwm 0 13 10 40 0, .sleep, .txPwm 0 13 10 0 0],
       .raised ⟨.cancelled, []⟩⟩ := by
    rw [tryBody_cancelled 0 13 PWM_FREQUENCY _ 0 (by rw [hloop])]
    rw [hloop]
    simp [PWM_FREQUENCY]
  have htr : (pwm_fan_control_chiphandle 0 13
      ⟨0, 0, [.reading 45000 0 true], 0, 0, 0⟩).trace =
      [.claimOutput 0 13 0, .getTemp 45, .txPwm 0 13 10 40 0, .sleep,
       .txPwm 0 13 10 0 0, .freeGpio 0 13 0] := by
    unfold pwm_fan_control_chiphandle
    dsimp only
    rw [gpio_claim_output_run 0 13 0 0 _ (by norm_num) (by rw [htb]; simp)]
    rw [htb]
    simp
  refine ⟨htr, ?_⟩
  intro e he d r
  rw [htr] at he
  simp only [List.mem_cons, List.mem_singleton, List.not_mem_nil, or_false] at he
  rcases he with rfl | rfl | rfl | rfl | rfl | rfl <;> simp

/-- C8 amended: for a loop iteration in which the sensor reports 45000
(45.00 °C) the computed duty cycle is 40 in both modules, and the PWM-set
call is made with frequency 20 Hz in `X715_fan.py` but with frequency 10 Hz
in `pwm_fan_control.py` (the two revisions hard-code different
frequencies). -/
theorem c8_scenario_45000 (h gpio : ℤ) (env : Env) (hclaim : 0 ≤ env.claimResult)
    (q : ℤ) (b : Bool) (rest : List IterEnv)
    (hiters : env.iters = .reading 45000 q b :: rest) :
    (fan_control_chiphandle h gpio env).trace.take 3 =
      [.claimOutput h gpio env.claimResult, .getTemp 45, .txPwm h gpio 20 40 q] ∧
    (pwm_fan_control_chiphandle h gpio env).trace.take 3 =
      [.claimOutput h gpio env.claimResult, .getTemp 45, .txPwm h gpio 10 40 q] := by
  have hd : temp_to_duty_cycle (45 : ℚ) = 40 := tdc_30_50 45 (by norm_num) (by norm_num)
  constructor
  · unfold fan_control_chiphandle
    rw [hiters, chiphandle_take3 h gpio FREQUENCY env.claimResult env.freeResult
      env.cancelPwmResult 45000 q b rest hclaim, tempOf_45000, hd]
    simp [FREQUENCY]
  · unfold pwm_fan_control_chiphandle
    rw [hiters, chiphandle_take3 h gpio PWM_FREQUENCY env.claimResult env.freeResult
      env.cancelPwmResult 45000 q b rest hclaim, tempOf_45000, hd]
    simp [PWM_FREQUENCY]

/-- Witness for C8's amended theorem at a concrete environment. -/
theorem c8_scenario_45000_witness :
    (fan_control_chiphandle 0 13 ⟨0, 0, [.reading 45000 0 true], 0, 0, 0⟩).trace.take 3 =
      [.claimOutput 0 13 0, .getTemp 45, .txPwm 0 13 20 40 0] ∧
    (pwm_fan_control_chiphandle 0 13
        ⟨0, 0, [.reading 45000 0 true], 0, 0, 0⟩).trace.take 3 =
      [.claimOutput 0 13 0, .getTemp 45, .txPwm 0 13 10 40 0] :=
  c8_scenario_45000 0 13 ⟨0, 0, [.reading 45000 0 true], 0, 0, 0⟩
    (by norm_num) 0 true [] rfl
